import Mathlib

/-!
Verification of the Stardew seed searcher core (python-version-with-cuda).

The development shallowly embeds the hash kernel (`internal/core.py`), the
RNG kernel and weather oracle (`internal/features.py`), the condition model
(`internal/models.py`), the CPU search loops (`internal/handlers.py`,
`internal/gpu_pure_accelerator.py`) and the CUDA weather kernel
(`internal/gpu_pure_accelerator.py`) as executable Lean functions.

Conventions of the embedding:
* Python integers are `Int`; Lean's `/` and `%` on `Int` (`Int.ediv`,
  `Int.emod`) coincide with Python's `//` and `%` for the positive divisors
  used throughout, so they translate Python division directly.
* unsigned 32-bit (CUDA) quantities are `Nat` with explicit `% 4294967296`
  where C arithmetic wraps.
* Python `float` (and CUDA `float`) values are modeled as exact rationals:
  the only float operations in the source are a division
  `first_rand / 0x7FFFFFFF` and threshold comparisons against decimal
  constants, modeled by exact division in `ℚ` and the constants by their
  decimal values.  Every concrete comparison evaluated in a proof below is
  far from the threshold, so rounding at `Float`/`float32` precision cannot
  change its outcome.
-/

/-! ## Hash kernel (`internal/core.py`, CUDA `xxhash32_single`)

XXHash32 over byte lists, written after the reference implementation that
ships inside the CUDA kernel string of `gpu_pure_accelerator.py` (the Python
side calls the `xxhash` library, which implements the same canonical
algorithm).  All arithmetic is unsigned 32-bit with wrap-around. -/

def U32 : Nat := 4294967296

def PRIME32_1 : Nat := 2654435761
def PRIME32_2 : Nat := 2246822519
def PRIME32_3 : Nat := 3266489917
def PRIME32_4 : Nat := 668265263
def PRIME32_5 : Nat := 374761393

/-- Rotate a 32-bit value left by `r` (mirrors `rotl32`). -/
def rotl32 (x r : Nat) : Nat :=
  ((x <<< r) % U32) ||| (x >>> (32 - r))

/-- One accumulator round (mirrors `round32`). -/
def xxRound (seed input : Nat) : Nat :=
  (rotl32 ((seed + input * PRIME32_2) % U32) 13 * PRIME32_1) % U32

/-- Little-endian 32-bit read of four bytes (mirrors `read32`). -/
def read32 (b0 b1 b2 b3 : Nat) : Nat :=
  b0 ||| (b1 <<< 8) ||| (b2 <<< 16) ||| (b3 <<< 24)

/-- Consume 16-byte blocks, updating the four lane accumulators
(the `while (ptr < end)` loop of `xxhash32_single`). -/
def xxBlocks : Nat → Nat → Nat → Nat → List Nat → (Nat × Nat × Nat × Nat × List Nat)
  | v1, v2, v3, v4,
    b0 :: b1 :: b2 :: b3 :: b4 :: b5 :: b6 :: b7 ::
    b8 :: b9 :: b10 :: b11 :: b12 :: b13 :: b14 :: b15 :: rest =>
    xxBlocks (xxRound v1 (read32 b0 b1 b2 b3)) (xxRound v2 (read32 b4 b5 b6 b7))
      (xxRound v3 (read32 b8 b9 b10 b11)) (xxRound v4 (read32 b12 b13 b14 b15)) rest
  | v1, v2, v3, v4, rest => (v1, v2, v3, v4, rest)

/-- Consume remaining 4-byte words (the `while (remaining >= 4)` loop). -/
def xxTail4 : Nat → List Nat → (Nat × List Nat)
  | h, b0 :: b1 :: b2 :: b3 :: rest =>
    xxTail4 ((rotl32 ((h + read32 b0 b1 b2 b3 * PRIME32_3) % U32) 17 * PRIME32_4) % U32) rest
  | h, rest => (h, rest)

/-- Consume remaining single bytes (the `while (remaining > 0)` loop). -/
def xxTail1 : Nat → List Nat → Nat
  | h, b :: rest => xxTail1 ((rotl32 ((h + b * PRIME32_5) % U32) 11 * PRIME32_1) % U32) rest
  | h, [] => h

/-- Final avalanche of XXHash32. -/
def xxAvalanche (h : Nat) : Nat :=
  let h := h ^^^ (h >>> 15)
  let h := (h * PRIME32_2) % U32
  let h := h ^^^ (h >>> 13)
  let h := (h * PRIME32_3) % U32
  h ^^^ (h >>> 16)

/-- XXHash32 of a byte list with the given seed (mirrors `xxhash32_single`). -/
def xxhash32 (seed : Nat) (data : List Nat) : Nat :=
  let len := data.length
  let (h0, rest) :=
    if 16 ≤ len then
      let (v1, v2, v3, v4, rest) :=
        xxBlocks ((seed + PRIME32_1 + PRIME32_2) % U32) ((seed + PRIME32_2) % U32)
          (seed % U32) ((seed + U32 - PRIME32_1) % U32) data
      ((rotl32 v1 1 + rotl32 v2 7 + rotl32 v3 12 + rotl32 v4 18) % U32, rest)
    else
      ((seed + PRIME32_5) % U32, data)
  let h1 := (h0 + len) % U32
  let (h2, rest2) := xxTail4 h1 rest
  xxAvalanche (xxTail1 h2 rest2)

/-- Reinterpret an unsigned 32-bit value as a signed two's-complement `Int`
(the `if hash32 >= 2**31` branch of `get_hash_from_bytes`). -/
def toSigned32 (h : Nat) : Int :=
  if h ≥ 2 ^ 31 then (h : Int) - 2 ^ 32 else (h : Int)

/-- Hash of a byte list with seed 0 reinterpreted as signed 32-bit
(mirrors `HashHelper.get_hash_from_bytes`). -/
def getHashFromBytes (data : List Nat) : Int :=
  toSigned32 (xxhash32 0 data)

/-- UTF-8 bytes of a string.  Every string hashed by this program is
ASCII, where the UTF-8 encoding is just the code point of each character. -/
def utf8Bytes (s : String) : List Nat :=
  s.data.map Char.toNat

/-- Mirrors `HashHelper.get_hash_from_string`. -/
def getHashFromString (s : String) : Int :=
  getHashFromBytes (utf8Bytes s)

/-- Four little-endian bytes of the unsigned 32-bit representation of a
value (the loop body of `get_hash_from_array`; Python's
`to_bytes(4, 'little')` raises for values outside `[0, 2^32)`, which no
call site produces). -/
def leBytes4 (v : Int) : List Nat :=
  let u := (if v < 0 then v + 2 ^ 32 else v).toNat
  [u % 256, u / 256 % 256, u / 65536 % 256, u / 16777216 % 256]

/-- Mirrors `HashHelper.get_hash_from_array` on five values. -/
def getHashFromArray (a b c d e : Int) : Int :=
  getHashFromBytes (leBytes4 a ++ leBytes4 b ++ leBytes4 c ++ leBytes4 d ++ leBytes4 e)

/-- Mirrors the inner `go_modulo` of `HashHelper.get_random_seed`:
Python's `%` (which is `Int.emod`) adjusted to return a non-positive
residue for negative inputs. -/
def goModulo (x m : Int) : Int :=
  let result := x % m
  if x < 0 ∧ result > 0 then result - m else result

/-- Mirrors `HashHelper.get_random_seed`. -/
def getRandomSeed (a b c d e : Int) (useLegacyRandom : Bool) : Int :=
  let a := goModulo a 2147483647
  let b := goModulo b 2147483647
  let c := goModulo c 2147483647
  let d := goModulo d 2147483647
  let e := goModulo e 2147483647
  if useLegacyRandom then (a + b + c + d + e) % 2147483647
  else getHashFromArray a b c d e

/-! ## RNG kernel (`internal/features.py`) -/

/-- Mirrors `WeatherPredictor._get_first_rand`: the first output of a .NET
`Random` seeded with `seed` (the constructor takes the absolute value of a
negative seed; the final `if result < 0` branch of the Python source is
kept although it is dead for `Int.emod`). -/
def getFirstRand (seed : Int) : Int :=
  let seed := if seed < 0 then -seed else seed
  let result := (1121899819 * seed + 1559595546) % 2147483647
  if result < 0 then result + 2147483647 else result

/-- Mirrors `WeatherPredictor._random_next_double`.  The Python `float`
division is modeled as exact division in `ℚ`. -/
def randomNextDouble (seed : Int) : ℚ :=
  (getFirstRand seed : ℚ) / 0x7FFFFFFF

/-- Mirrors `WeatherPredictor._random_next` (C#'s `Random.Next(maxValue)`);
Python's `//` on non-negative operands is `Int.ediv`, Lean's `/`. -/
def randomNext (seed maxValue : Int) : Int :=
  if maxValue ≤ 0 then 0
  else getFirstRand seed * maxValue / 2147483647

/-! ## Condition model (`internal/models.py`) -/

inductive Season where
  | spring
  | summer
  | fall
deriving DecidableEq, Repr

/-- The validated weather filtering condition (`models.WeatherCondition`).
Day fields are Python ints. -/
structure WeatherCondition where
  season : Season
  startDay : Int
  endDay : Int
  minRainDays : Int
deriving DecidableEq, Repr

/-- Season offset used by the `absolute_start_day`/`absolute_end_day`
properties. -/
def seasonOffset : Season → Int
  | .spring => 0
  | .summer => 28
  | .fall => 56

def WeatherCondition.absoluteStartDay (c : WeatherCondition) : Int :=
  seasonOffset c.season + c.startDay

def WeatherCondition.absoluteEndDay (c : WeatherCondition) : Int :=
  seasonOffset c.season + c.endDay

/-- Mirrors constructing a `models.WeatherCondition`: the pydantic field
bounds (`ge=1, le=28` on the days, `ge=1` on `min_rain_days`) followed by
the three `model_post_init` checks, each of which raises on violation.
`none` models a rejected construction. -/
def mkWeatherCondition (season : Season) (startDay endDay minRainDays : Int) :
    Option WeatherCondition :=
  if ¬ (1 ≤ startDay ∧ startDay ≤ 28 ∧ 1 ≤ endDay ∧ endDay ≤ 28 ∧ 1 ≤ minRainDays) then
    none
  else if startDay > endDay then none
  else if minRainDays > endDay - startDay + 1 then none
  else if minRainDays = endDay - startDay + 1 then none
  else some ⟨season, startDay, endDay, minRainDays⟩

/-! ## Weather oracle (`internal/features.py`, class `WeatherPredictor`) -/

/-- Precomputed `_summer_rain_chance_hash`. -/
def summerRainChanceHash : Int := getHashFromString "summer_rain_chance"

/-- Precomputed `_location_weather_hash`. -/
def locationWeatherHash : Int := getHashFromString "location_weather"

/-- The eight candidate green-rain days of `predict_weather`. -/
def greenRainDays : List Int := [5, 6, 7, 14, 15, 16, 18, 23]

/-- The seed of the green-rain draw (`year * 777` with `year = 1`). -/
def greenRainSeed (gameId : Int) (useLegacyRandom : Bool) : Int :=
  getRandomSeed (1 * 777) gameId 0 0 0 useLegacyRandom

/-- The list access `green_rain_days[self._random_next(seed, 8)]` as an
`Option`: `none` models the `IndexError` Python would raise were the index
out of bounds. -/
def greenRainDayOpt (gameId : Int) (useLegacyRandom : Bool) : Option Int :=
  greenRainDays.get? (randomNext (greenRainSeed gameId useLegacyRandom) 8).toNat

/-- The green-rain day of the summer (total version; the index is proved
in bounds below, so the default is never used). -/
def greenRainDay (gameId : Int) (useLegacyRandom : Bool) : Int :=
  (greenRainDayOpt gameId useLegacyRandom).getD 0

/-- Mirrors `WeatherPredictor._is_rainy_day`.  `green` is the precomputed
green-rain day; Python's `in [..]` tests are the corresponding
disjunctions, `game_id // 2` is `Int.ediv` (`game_id` is non-negative in
every request), and the two probabilistic thresholds are compared in `ℚ`. -/
def isRainyDay (season dayOfMonth absoluteDay gameId : Int) (useLegacyRandom : Bool)
    (green : Int) : Bool :=
  if dayOfMonth = 1 then false
  else if season = 0 then
    if dayOfMonth = 2 ∨ dayOfMonth = 4 ∨ dayOfMonth = 5 then false
    else if dayOfMonth = 3 then true
    else if dayOfMonth = 13 ∨ dayOfMonth = 24 then false
    else
      decide (randomNextDouble
        (getRandomSeed locationWeatherHash gameId (absoluteDay - 1) 0 0 useLegacyRandom)
        < 183 / 1000)
  else if season = 1 then
    if dayOfMonth = green then true
    else if dayOfMonth = 11 ∨ dayOfMonth = 28 then false
    else if dayOfMonth % 13 = 0 then true
    else
      decide (randomNextDouble
        (getRandomSeed (absoluteDay - 1) (gameId / 2) summerRainChanceHash 0 0 useLegacyRandom)
        < 12 / 100 + 3 / 1000 * ((dayOfMonth : ℚ) - 1))
  else if season = 2 then
    if dayOfMonth = 16 ∨ dayOfMonth = 27 then false
    else
      decide (randomNextDouble
        (getRandomSeed locationWeatherHash gameId (absoluteDay - 1) 0 0 useLegacyRandom)
        < 183 / 1000)
  else
    decide (randomNextDouble
      (getRandomSeed locationWeatherHash gameId (absoluteDay - 1) 0 0 useLegacyRandom)
      < 183 / 1000)

/-- Mirrors `WeatherPredictor.predict_weather`: the weather of absolute
days 1..84, day `d` stored at index `d - 1`. -/
def predictWeather (gameId : Int) (useLegacyRandom : Bool) : List Bool :=
  let green := greenRainDay gameId useLegacyRandom
  (List.range 84).map fun (i : Nat) =>
    isRainyDay (((i : Int) + 1 - 1) / 28) (((i : Int) + 1 - 1) % 28 + 1) ((i : Int) + 1)
      gameId useLegacyRandom green

/-- The dictionary lookup `weather.get(day, False)` over the map built by
`predict_weather`, whose keys are exactly 1..84. -/
def weatherGet (gameId : Int) (useLegacyRandom : Bool) (day : Int) : Bool :=
  if 1 ≤ day ∧ day ≤ 84 then (predictWeather gameId useLegacyRandom).getD (day - 1).toNat false
  else false

/-! ## Predicate evaluator (`WeatherPredictor.check`,
`WeatherPredictor._count_rain_in_range`) -/

/-- Python's `range(a, b + 1)` as a list of `Int`. -/
def intRange (a b : Int) : List Int :=
  (List.range (b + 1 - a).toNat).map fun (i : Nat) => a + (i : Int)

/-- Mirrors `WeatherPredictor._count_rain_in_range` over an abstract
weather lookup `w`. -/
def countRainInRange (w : Int → Bool) (c : WeatherCondition) : Nat :=
  (intRange c.absoluteStartDay c.absoluteEndDay).countP w

/-- The condition loop of `WeatherPredictor.check`: every condition must
see at least `min_rain_days` rainy days (the loop returns `False` at the
first failing condition, which is `List.all`). -/
def matchesConditions (w : Int → Bool) (conds : List WeatherCondition) : Bool :=
  conds.all fun c => !((countRainInRange w c : Int) < c.minRainDays)

/-- Mirrors `WeatherPredictor.check`: an empty condition list accepts
every seed without predicting weather. -/
def checkSeed (conds : List WeatherCondition) (gameId : Int) (useLegacyRandom : Bool) : Bool :=
  if conds.isEmpty then true
  else matchesConditions (weatherGet gameId useLegacyRandom) conds

/-! ## CUDA weather kernel (`gpu_pure_accelerator.py`, device functions)

The kernel works on unsigned 32-bit values (`Nat` here).  It never reduces
the five seed components modulo `2147483647` the way the CPU's
`get_random_seed` does, and its fixed-rule table differs from the CPU's
(`day_of_month == 1` is only forced dry in spring). -/

/-- Mirrors `get_random_seed_gpu`: five unsigned 32-bit components, summed
in 64-bit for legacy mode or packed as 20 little-endian bytes and hashed.
The byte packing `(x >> 8k) & 0xFF` agrees with `leBytes4` on values below
`2^32`. -/
def gpuGetRandomSeed (a b c d e : Nat) (useLegacyRandom : Bool) : Nat :=
  if useLegacyRandom then (a + b + c + d + e) % 2147483647
  else
    xxhash32 0
      ([a % 256, a / 256 % 256, a / 65536 % 256, a / 16777216 % 256] ++
       [b % 256, b / 256 % 256, b / 65536 % 256, b / 16777216 % 256] ++
       [c % 256, c / 256 % 256, c / 65536 % 256, c / 16777216 % 256] ++
       [d % 256, d / 256 % 256, d / 65536 % 256, d / 16777216 % 256] ++
       [e % 256, e / 256 % 256, e / 65536 % 256, e / 16777216 % 256])

/-- Mirrors `get_first_rand_gpu`: `(int)seed < 0` is `2^31 ≤ seed`, and the
unsigned negation `-seed` is `2^32 - seed`. -/
def gpuGetFirstRand (seed : Nat) : Nat :=
  let seed := if 2 ^ 31 ≤ seed then (U32 - seed) % U32 else seed
  (1121899819 * seed + 1559595546) % 2147483647

/-- Mirrors `random_next_double_gpu`; the `float` (32-bit) division is
modeled as exact division in `ℚ`. -/
def gpuRandomNextDouble (seed : Nat) : ℚ :=
  (gpuGetFirstRand seed : ℚ) / 2147483647

/-- Mirrors `random_next_gpu`. -/
def gpuRandomNext (seed : Nat) (maxValue : Int) : Int :=
  if maxValue ≤ 0 then 0
  else (gpuGetFirstRand seed : Int) * maxValue / 2147483647

/-- Mirrors `is_rainy_day_gpu`.  Unlike the CPU `_is_rainy_day`, only
spring forces `day_of_month == 1` dry; in summer and fall day 1 falls
through to the probabilistic draw.  The green-rain day is recomputed from
`get_random_seed_gpu(777, game_id, 0, 0, 0)` on every summer day.  The
hash constants `0xed92925e` and `0xa5ce619e` are the unsigned forms of the
CPU's precomputed string hashes. -/
def gpuIsRainyDay (season dayOfMonth absoluteDay : Int) (gameId : Nat)
    (useLegacyRandom : Bool) : Bool :=
  if season = 0 then
    if dayOfMonth = 1 ∨ dayOfMonth = 2 ∨ dayOfMonth = 4 ∨ dayOfMonth = 5 then false
    else if dayOfMonth = 3 then true
    else if dayOfMonth = 13 ∨ dayOfMonth = 24 then false
    else
      decide (gpuRandomNextDouble
        (gpuGetRandomSeed 0xa5ce619e gameId (absoluteDay - 1).toNat 0 0 useLegacyRandom)
        < 183 / 1000)
  else if season = 1 then
    let greenRainSeedGpu := gpuGetRandomSeed (1 * 777) gameId 0 0 0 useLegacyRandom
    let greenRainDayGpu := greenRainDays.getD (gpuRandomNext greenRainSeedGpu 8).toNat 0
    if dayOfMonth = greenRainDayGpu then true
    else if dayOfMonth = 11 ∨ dayOfMonth = 28 then false
    else if dayOfMonth % 13 = 0 then true
    else
      decide (gpuRandomNextDouble
        (gpuGetRandomSeed (absoluteDay - 1).toNat (gameId / 2) 0xed92925e 0 0 useLegacyRandom)
        < 12 / 100 + 3 / 1000 * ((dayOfMonth : ℚ) - 1))
  else if season = 2 then
    if dayOfMonth = 16 ∨ dayOfMonth = 27 then false
    else
      decide (gpuRandomNextDouble
        (gpuGetRandomSeed 0xa5ce619e gameId (absoluteDay - 1).toNat 0 0 useLegacyRandom)
        < 183 / 1000)
  else
    decide (gpuRandomNextDouble
      (gpuGetRandomSeed 0xa5ce619e gameId (absoluteDay - 1).toNat 0 0 useLegacyRandom)
      < 183 / 1000)

/-- Season index sent to the kernel (`_get_season_offset`). -/
def gpuSeasonIndex : Season → Int
  | .spring => 0
  | .summer => 1
  | .fall => 2

/-- Number of rainy days one condition sees in `weather_prediction_kernel`:
the kernel walks `day` from `start_day` to `end_day` and evaluates
`is_rainy_day_gpu(season, day, season*28 + day, ...)`. -/
def gpuCountRain (c : WeatherCondition) (gameId : Nat) (useLegacyRandom : Bool) : Nat :=
  (intRange c.startDay c.endDay).countP fun day =>
    gpuIsRainyDay (gpuSeasonIndex c.season) day (gpuSeasonIndex c.season * 28 + day)
      gameId useLegacyRandom

/-- The per-seed match bit of `weather_prediction_kernel`: each condition
must see at least `min_rain_days` rainy days (the kernel clears the bit
and breaks at the first failing condition, which is `List.all`). -/
def gpuMatchesSeed (conds : List WeatherCondition) (gameId : Nat)
    (useLegacyRandom : Bool) : Bool :=
  conds.all fun c => !((gpuCountRain c gameId useLegacyRandom : Int) < c.minRainDays)

/-! ## Search driver (`handlers.worker_task`,
`PureGPUSeedSearcher.search_seeds_pure_gpu`,
`PureGPUSeedSearcher._search_seeds_cpu_fallback`)

The loops are modeled sequentially over an abstract per-seed predicate
`isMatch` (instantiated with `checkSeed` on the CPU paths and
`gpuMatchesSeed` on the accelerator path).  `worker_task` is modeled in
its single-worker form: one worker walking its whole contiguous range in
ascending order; the shared stop flag then only ever stops the loop that
set it. -/

/-- The loop of `_search_seeds_cpu_fallback`: walk the seeds in ascending
order, stop as soon as `output_limit` results are collected. -/
def cpuFallbackGo (isMatch : Int → Bool) (outputLimit : Nat) :
    List Int → List Int → List Int
  | results, [] => results
  | results, seed :: rest =>
    if outputLimit ≤ results.length then results
    else if isMatch seed then cpuFallbackGo isMatch outputLimit (results ++ [seed]) rest
    else cpuFallbackGo isMatch outputLimit results rest

/-- Mirrors `_search_seeds_cpu_fallback` over `range(start_seed, end_seed + 1)`. -/
def cpuFallbackSearch (isMatch : Int → Bool) (startSeed endSeed : Int)
    (outputLimit : Nat) : List Int :=
  cpuFallbackGo isMatch outputLimit [] (intRange startSeed endSeed)

/-- The seed loop of `worker_task`: a match is appended only while the
result list is below `output_limit`; reaching the limit (or finding it
already full) sets `should_stop`, which ends the loop. -/
def workerGo (isMatch : Int → Bool) (outputLimit : Nat) :
    List Int → List Int → List Int
  | results, [] => results
  | results, seed :: rest =>
    if isMatch seed then
      if results.length < outputLimit then
        if outputLimit ≤ (results ++ [seed]).length then results ++ [seed]
        else workerGo isMatch outputLimit (results ++ [seed]) rest
      else results
    else workerGo isMatch outputLimit results rest

/-- Mirrors `worker_task` run as the only worker of its range. -/
def workerSearch (isMatch : Int → Bool) (startSeed endSeed : Int)
    (outputLimit : Nat) : List Int :=
  workerGo isMatch outputLimit [] (intRange startSeed endSeed)

/-- Batch size of `search_seeds_pure_gpu` (`batch_size = 100_000_000`). -/
def gpuBatchSize : Int := 100000000

/-- The batch loop of `search_seeds_pure_gpu`: one kernel launch per
`batch_size` tile; `cp.where` lists a batch's matching lane indices in
ascending order; the loop breaks once `output_limit` results have been
accumulated.  `fuel` bounds the number of `range(start, end+1, batch_size)`
iterations and is chosen large enough by `searchSeedsPureGpu`. -/
def gpuSearchGo (isMatch : Int → Bool) (outputLimit : Nat) (endSeed : Int) :
    Nat → Int → List Int → List Int
  | 0, _, allResults => allResults
  | fuel + 1, batchStart, allResults =>
    if endSeed < batchStart then allResults
    else
      let batchEnd := min (batchStart + gpuBatchSize - 1) endSeed
      let allResults := allResults ++ (intRange batchStart batchEnd).filter isMatch
      if outputLimit ≤ allResults.length then allResults
      else gpuSearchGo isMatch outputLimit endSeed fuel (batchStart + gpuBatchSize) allResults

/-- Mirrors `search_seeds_pure_gpu`: run the batch loop, then truncate the
collected results to `output_limit` (`all_results[:output_limit]`). -/
def searchSeedsPureGpu (isMatch : Int → Bool) (startSeed endSeed : Int)
    (outputLimit : Nat) : List Int :=
  (gpuSearchGo isMatch outputLimit endSeed ((endSeed - startSeed).toNat / gpuBatchSize.toNat + 1)
    startSeed []).take outputLimit

/-! ## Basic facts about the RNG kernel -/

lemma goModulo_def (x m : Int) :
    goModulo x m = if x < 0 ∧ x % m > 0 then x % m - m else x % m := rfl

/-- Truncated-division remainders negate with the dividend. -/
lemma tmod_neg_dividend (x m : Int) : (-x).tmod m = -(x.tmod m) := by
  simp [Int.tmod_def, Int.neg_tdiv, mul_neg]
  ring

/-- `go_modulo` is exactly the truncated-division remainder (Go's `%`). -/
lemma goModulo_eq_tmod (x : Int) : goModulo x 2147483647 = x.tmod 2147483647 := by
  rcases le_or_lt 0 x with hx | hx
  · rw [goModulo_def, Int.tmod_eq_emod hx (by norm_num), if_neg (by omega)]
  · have h1 : x.tmod 2147483647 = -((-x).tmod 2147483647) := by
      rw [show x = -(-x) by ring, tmod_neg_dividend]; ring_nf
    have h2 : (-x).tmod 2147483647 = (-x) % 2147483647 :=
      Int.tmod_eq_emod (by omega) (by norm_num)
    rw [goModulo_def]
    omega

lemma getFirstRand_eq_emod (seed : Int) :
    getFirstRand seed =
      (1121899819 * (if seed < 0 then -seed else seed) + 1559595546) % 2147483647 := by
  have h : 0 ≤ (1121899819 * (if seed < 0 then -seed else seed) + 1559595546) % 2147483647 :=
    Int.emod_nonneg _ (by norm_num)
  simp only [getFirstRand]
  omega

lemma getFirstRand_nonneg (seed : Int) : 0 ≤ getFirstRand seed := by
  rw [getFirstRand_eq_emod]
  exact Int.emod_nonneg _ (by norm_num)

lemma getFirstRand_lt (seed : Int) : getFirstRand seed < 2147483647 := by
  rw [getFirstRand_eq_emod]
  exact Int.emod_lt_of_pos _ (by norm_num)

lemma randomNext_eight_nonneg (seed : Int) : 0 ≤ randomNext seed 8 := by
  rw [randomNext, if_neg (by norm_num)]
  exact Int.ediv_nonneg (by nlinarith [getFirstRand_nonneg seed]) (by norm_num)

lemma randomNext_eight_lt (seed : Int) : randomNext seed 8 < 8 := by
  rw [randomNext, if_neg (by norm_num)]
  rw [Int.ediv_lt_iff_lt_mul (by norm_num)]
  nlinarith [getFirstRand_lt seed]

lemma greenRainDayOpt_isSome (gameId : Int) (useLegacyRandom : Bool) :
    (greenRainDayOpt gameId useLegacyRandom).isSome = true := by
  have h0 := randomNext_eight_nonneg (greenRainSeed gameId useLegacyRandom)
  have h8 := randomNext_eight_lt (greenRainSeed gameId useLegacyRandom)
  have hn : (randomNext (greenRainSeed gameId useLegacyRandom) 8).toNat < 8 := by omega
  unfold greenRainDayOpt
  generalize (randomNext (greenRainSeed gameId useLegacyRandom) 8).toNat = n at hn
  interval_cases n <;> decide

lemma greenRainDay_cases (gameId : Int) (useLegacyRandom : Bool) :
    greenRainDay gameId useLegacyRandom = 5 ∨ greenRainDay gameId useLegacyRandom = 6 ∨
    greenRainDay gameId useLegacyRandom = 7 ∨ greenRainDay gameId useLegacyRandom = 14 ∨
    greenRainDay gameId useLegacyRandom = 15 ∨ greenRainDay gameId useLegacyRandom = 16 ∨
    greenRainDay gameId useLegacyRandom = 18 ∨ greenRainDay gameId useLegacyRandom = 23 := by
  have h0 := randomNext_eight_nonneg (greenRainSeed gameId useLegacyRandom)
  have h8 := randomNext_eight_lt (greenRainSeed gameId useLegacyRandom)
  have hn : (randomNext (greenRainSeed gameId useLegacyRandom) 8).toNat < 8 := by omega
  unfold greenRainDay greenRainDayOpt
  generalize (randomNext (greenRainSeed gameId useLegacyRandom) 8).toNat = n at hn
  interval_cases n <;> simp [greenRainDays]

/-! ## Claim theorems: hash kernel, RNG kernel, random seed -/

/-- C3: the hash kernel is canonical XXHash32 with seed 0, reinterpreted as
signed 32-bit: `hash_string("test") = 1042293711`,
`hash_string("summer_rain_chance") = -309161378`,
`hash_ints(1,2,3,4,5) = 100340316`, and `hash_ints(777,0,0,0,0) =
827005275`, with 20-byte little-endian packing of the unsigned 32-bit
representations. -/
theorem hash_kernel_reference_vectors :
    getHashFromString "test" = 1042293711 ∧
    getHashFromString "summer_rain_chance" = -309161378 ∧
    getHashFromArray 1 2 3 4 5 = 100340316 ∧
    getHashFromArray 777 0 0 0 0 = 827005275 := by
  refine ⟨by decide, by decide, by decide, by decide⟩

/-- C6: for every signed 32-bit seed, `first_rand` is the linear
congruential step on the absolute value of the seed, lands in
`[0, 2^31 - 2]`, and `next_double` is `first_rand / (2^31 - 1)`, a value
in `[0, 1)`. -/
theorem first_rand_formula_range_next_double (seed : Int)
    (hlo : -(2 ^ 31) ≤ seed) (hhi : seed ≤ 2 ^ 31 - 1) :
    getFirstRand seed = (1121899819 * |seed| + 1559595546) % (2 ^ 31 - 1) ∧
    0 ≤ getFirstRand seed ∧ getFirstRand seed ≤ 2 ^ 31 - 2 ∧
    randomNextDouble seed = (getFirstRand seed : ℚ) / (2 ^ 31 - 1) ∧
    0 ≤ randomNextDouble seed ∧ randomNextDouble seed < 1 := by
  have habs : (if seed < 0 then -seed else seed) = |seed| := by
    rcases lt_or_le seed 0 with h | h
    · rw [if_pos h, abs_of_neg h]
    · rw [if_neg (by omega), abs_of_nonneg h]
  have h1 : getFirstRand seed = (1121899819 * |seed| + 1559595546) % (2 ^ 31 - 1) := by
    rw [getFirstRand_eq_emod, habs]; norm_num
  have h2 := getFirstRand_nonneg seed
  have h3 := getFirstRand_lt seed
  have h4 : randomNextDouble seed = (getFirstRand seed : ℚ) / (2 ^ 31 - 1) := by
    rw [randomNextDouble]; norm_num
  refine ⟨h1, h2, by omega, h4, ?_, ?_⟩
  · rw [h4]
    positivity
  · rw [h4]
    rw [div_lt_one (by norm_num)]
    have : (getFirstRand seed : ℚ) < (2147483647 : ℚ) := by exact_mod_cast h3
    linarith

/-- C6 witness: the theorem instantiated at seed 12345. -/
theorem first_rand_at_12345 :
    getFirstRand 12345 = (1121899819 * |(12345 : Int)| + 1559595546) % (2 ^ 31 - 1) ∧
    0 ≤ randomNextDouble 12345 ∧ randomNextDouble 12345 < 1 := by
  obtain ⟨h1, _, _, _, h5, h6⟩ :=
    first_rand_formula_range_next_double 12345 (by norm_num) (by norm_num)
  exact ⟨h1, h5, h6⟩

/-- C7: `random_seed` first reduces each input by the sign-preserving
(truncated-division) remainder modulo 2147483647 — non-positive for
negative inputs — and in legacy mode returns the sum of the five residues
modulo 2147483647; in particular `random_seed(1,2,3,4,5, legacy) = 15`
and `random_seed(777,0,0,0,0, legacy) = 777`. -/
theorem random_seed_legacy_reduction_and_sum (a b c d e : Int) :
    goModulo a 2147483647 = a.tmod 2147483647 ∧
    (a < 0 → goModulo a 2147483647 ≤ 0) ∧
    getRandomSeed a b c d e true =
      (a.tmod 2147483647 + b.tmod 2147483647 + c.tmod 2147483647 +
       d.tmod 2147483647 + e.tmod 2147483647) % 2147483647 ∧
    getRandomSeed 1 2 3 4 5 true = 15 ∧
    getRandomSeed 777 0 0 0 0 true = 777 := by
  refine ⟨goModulo_eq_tmod a, ?_, ?_, by decide, by decide⟩
  · intro ha
    rw [goModulo_def]
    omega
  · simp only [getRandomSeed, goModulo_eq_tmod, if_true]

/-- C10: the bounded draw `next_int(seed, 8)` always lands in `[0, 7]`,
so the eight-element green-rain list access of `predict_weather` is in
bounds and never fails. -/
theorem random_next_eight_in_bounds_green_day_total (seed gameId : Int)
    (useLegacyRandom : Bool) :
    0 ≤ randomNext seed 8 ∧ randomNext seed 8 < 8 ∧
    (greenRainDayOpt gameId useLegacyRandom).isSome = true :=
  ⟨randomNext_eight_nonneg seed, randomNext_eight_lt seed,
    greenRainDayOpt_isSome gameId useLegacyRandom⟩

/-! ## Claim theorems: condition model and predicate evaluator -/

/-- C8: constructing a `WeatherCondition` succeeds exactly when
`1 ≤ start_day ≤ 28`, `1 ≤ end_day ≤ 28`, `min_rain_days ≥ 1`,
`start_day ≤ end_day` and `min_rain_days < end_day - start_day + 1`;
every constructed value carries exactly the validated fields, so no value
violating the invariants exists. -/
theorem weather_condition_construction_iff (s : Season) (sd ed mr : Int) :
    ((mkWeatherCondition s sd ed mr).isSome ↔
      (1 ≤ sd ∧ sd ≤ 28 ∧ 1 ≤ ed ∧ ed ≤ 28 ∧ 1 ≤ mr ∧ sd ≤ ed ∧ mr < ed - sd + 1)) ∧
    (∀ c, mkWeatherCondition s sd ed mr = some c →
      c.season = s ∧ c.startDay = sd ∧ c.endDay = ed ∧ c.minRainDays = mr ∧
      1 ≤ c.startDay ∧ c.startDay ≤ 28 ∧ 1 ≤ c.endDay ∧ c.endDay ≤ 28 ∧
      1 ≤ c.minRainDays ∧ c.startDay ≤ c.endDay ∧
      c.minRainDays < c.endDay - c.startDay + 1) := by
  constructor
  · unfold mkWeatherCondition
    split_ifs with h1 h2 h3 h4 <;> simp <;> omega
  · intro c hc
    unfold mkWeatherCondition at hc
    split_ifs at hc with h1 h2 h3 h4
    obtain rfl : c = ⟨s, sd, ed, mr⟩ := by exact (Option.some_injective _ hc).symm
    refine ⟨rfl, rfl, rfl, rfl, ?_, ?_, ?_, ?_, ?_, ?_, ?_⟩ <;> simp <;> omega

/-- C5: `matches(W, C)` holds exactly when every clause sees at least its
`min_rain_days` rainy days over its absolute day range; the empty
condition set accepts every weather vector. -/
theorem matches_iff_all_clauses_satisfied (w : Int → Bool) (conds : List WeatherCondition) :
    (matchesConditions w conds = true ↔
      ∀ c ∈ conds, (c.minRainDays : Int) ≤ (countRainInRange w c : Int)) ∧
    matchesConditions w [] = true := by
  constructor
  · rw [matchesConditions, List.all_eq_true]
    constructor
    · intro h c hc
      have := h c hc
      simp only [Bool.not_eq_true', decide_eq_false_iff_not, not_lt] at this
      exact this
    · intro h c hc
      simp only [Bool.not_eq_true', decide_eq_false_iff_not, not_lt]
      exact h c hc
  · rfl

/-- C9: relaxing one clause's `min_rain_days` (to any value at least 1 and
no larger than before) preserves a match: `matches` is monotone in each
clause's `min_rain_days`. -/
theorem matches_monotone_in_min_rain_days (w : Int → Bool)
    (conds : List WeatherCondition) (i : Nat) (c c' : WeatherCondition)
    (hget : conds.get? i = some c)
    (hseason : c'.season = c.season) (hstart : c'.startDay = c.startDay)
    (hend : c'.endDay = c.endDay)
    (hone : 1 ≤ c'.minRainDays) (hle : c'.minRainDays ≤ c.minRainDays)
    (hmatch : matchesConditions w conds = true) :
    matchesConditions w (conds.set i c') = true := by
  rw [matchesConditions, List.all_eq_true] at hmatch ⊢
  intro x hx
  rcases List.mem_or_eq_of_mem_set hx with hmem | rfl
  · exact hmatch x hmem
  · have hc : c ∈ conds := List.get?_mem hget
    have hcount : countRainInRange w x = countRainInRange w c := by
      unfold countRainInRange WeatherCondition.absoluteStartDay WeatherCondition.absoluteEndDay
      rw [hseason, hstart, hend]
    have := hmatch c hc
    simp only [Bool.not_eq_true', decide_eq_false_iff_not, not_lt] at this ⊢
    rw [hcount]
    omega

/-- C9 witness: the theorem at the concrete weather vector raining on days
1 and 2 and the clause `Spring 1..3, min 2` relaxed to `min 1`. -/
theorem matches_monotone_witness :
    matchesConditions (fun d => decide (d = 1 ∨ d = 2))
      ([⟨Season.spring, 1, 3, 2⟩].set 0 ⟨Season.spring, 1, 3, 1⟩) = true :=
  matches_monotone_in_min_rain_days (fun d => decide (d = 1 ∨ d = 2))
    [⟨Season.spring, 1, 3, 2⟩] 0 ⟨Season.spring, 1, 3, 2⟩ ⟨Season.spring, 1, 3, 1⟩
    rfl rfl rfl rfl (by decide) (by decide) (by decide)

/-! ## Claim theorems: weather oracle fixed rules -/

lemma predictWeather_length (S : Int) (L : Bool) : (predictWeather S L).length = 84 := by
  simp only [predictWeather, List.length_map, List.length_range]

lemma predictWeather_getD (S : Int) (L : Bool) (k : Nat) (hk : k < 84) :
    (predictWeather S L).getD k false =
      isRainyDay (((k : Int) + 1 - 1) / 28) (((k : Int) + 1 - 1) % 28 + 1) ((k : Int) + 1)
        S L (greenRainDay S L) := by
  simp only [predictWeather, List.getD_eq_getElem?_getD, List.getElem?_map,
    List.getElem?_range hk, Option.map_some', Option.getD_some]

lemma greenRainDay_ne (S : Int) (L : Bool) (v : Int)
    (h5 : v ≠ 5) (h6 : v ≠ 6) (h7 : v ≠ 7) (h14 : v ≠ 14) (h15 : v ≠ 15)
    (h16 : v ≠ 16) (h18 : v ≠ 18) (h23 : v ≠ 23) : greenRainDay S L ≠ v := by
  rcases greenRainDay_cases S L with h|h|h|h|h|h|h|h <;> omega

/-- C4: for every seed and legacy flag, `predict_year` returns exactly 84
booleans; day 1 of each season is dry, spring day 3 is rain, spring days
13 and 24, summer days 11 and 28 and fall days 16 and 27 are dry, and
summer days 13 and 26 are rain.  Day `d` of the year is stored at index
`d - 1`. -/
theorem predict_year_fixed_calendar_rules (S : Int) (L : Bool) :
    (predictWeather S L).length = 84 ∧
    (predictWeather S L).getD 0 false = false ∧
    (predictWeather S L).getD 28 false = false ∧
    (predictWeather S L).getD 56 false = false ∧
    (predictWeather S L).getD 2 false = true ∧
    (predictWeather S L).getD 12 false = false ∧
    (predictWeather S L).getD 23 false = false ∧
    (predictWeather S L).getD 38 false = false ∧
    (predictWeather S L).getD 55 false = false ∧
    (predictWeather S L).getD 71 false = false ∧
    (predictWeather S L).getD 82 false = false ∧
    (predictWeather S L).getD 40 false = true ∧
    (predictWeather S L).getD 53 false = true := by
  have hg11 : greenRainDay S L ≠ 11 := greenRainDay_ne S L 11
    (by norm_num) (by norm_num) (by norm_num) (by norm_num) (by norm_num)
    (by norm_num) (by norm_num) (by norm_num)
  have hg13 : greenRainDay S L ≠ 13 := greenRainDay_ne S L 13
    (by norm_num) (by norm_num) (by norm_num) (by norm_num) (by norm_num)
    (by norm_num) (by norm_num) (by norm_num)
  have hg26 : greenRainDay S L ≠ 26 := greenRainDay_ne S L 26
    (by norm_num) (by norm_num) (by norm_num) (by norm_num) (by norm_num)
    (by norm_num) (by norm_num) (by norm_num)
  have hg28 : greenRainDay S L ≠ 28 := greenRainDay_ne S L 28
    (by norm_num) (by norm_num) (by norm_num) (by norm_num) (by norm_num)
    (by norm_num) (by norm_num) (by norm_num)
  refine ⟨predictWeather_length S L, ?_, ?_, ?_, ?_, ?_, ?_, ?_, ?_, ?_, ?_, ?_, ?_⟩
  · rw [predictWeather_getD S L 0 (by norm_num)]
    norm_num [isRainyDay]
  · rw [predictWeather_getD S L 28 (by norm_num)]
    norm_num [isRainyDay]
  · rw [predictWeather_getD S L 56 (by norm_num)]
    norm_num [isRainyDay]
  · rw [predictWeather_getD S L 2 (by norm_num)]
    norm_num [isRainyDay]
  · rw [predictWeather_getD S L 12 (by norm_num)]
    norm_num [isRainyDay]
  · rw [predictWeather_getD S L 23 (by norm_num)]
    norm_num [isRainyDay]
  · rw [predictWeather_getD S L 38 (by norm_num)]
    norm_num [isRainyDay, Ne.symm hg11]
  · rw [predictWeather_getD S L 55 (by norm_num)]
    norm_num [isRainyDay, Ne.symm hg28]
  · rw [predictWeather_getD S L 71 (by norm_num)]
    norm_num [isRainyDay]
  · rw [predictWeather_getD S L 82 (by norm_num)]
    norm_num [isRainyDay]
  · rw [predictWeather_getD S L 40 (by norm_num)]
    norm_num [isRainyDay, Ne.symm hg13]
  · rw [predictWeather_getD S L 53 (by norm_num)]
    norm_num [isRainyDay, Ne.symm hg26]

/-! ## Claim theorems: search driver -/
lemma intRange_nil (a b : Int) (h : b < a) : intRange a b = [] := by
  rw [intRange]
  have h0 : (b + 1 - a).toNat = 0 := by omega
  rw [h0]
  rfl

lemma intRange_append (a m b : Int) (h1 : a ≤ m + 1) (h2 : m ≤ b) :
    intRange a b = intRange a m ++ intRange (m + 1) b := by
  have hn : (b + 1 - a).toNat = (m + 1 - a).toNat + (b - m).toNat := by omega
  have hm : b + 1 - (m + 1) = b - m := by ring
  rw [intRange, hn, List.range_add, List.map_append, intRange, intRange, hm]
  congr 1
  rw [List.map_map]
  apply List.map_congr_left
  intro x hx
  simp only [Function.comp_apply]
  push_cast
  omega

lemma intRange_pairwise (a b : Int) : (intRange a b).Pairwise (· < ·) := by
  rw [intRange, List.pairwise_map]
  refine List.Pairwise.imp ?_ (List.pairwise_lt_range ((b + 1 - a).toNat))
  intro i j hij
  simp only [add_lt_add_iff_left]
  exact_mod_cast hij

lemma cpuFallbackGo_eq (isMatch : Int → Bool) (K : Nat) (l acc : List Int) :
    cpuFallbackGo isMatch K acc l =
      if K ≤ acc.length then acc else acc ++ (l.filter isMatch).take (K - acc.length) := by
  induction l generalizing acc with
  | nil => rw [cpuFallbackGo]; split_ifs <;> simp
  | cons s rest ih =>
    rw [cpuFallbackGo]
    split_ifs with h1 h2
    · rfl
    · rw [ih, List.filter_cons_of_pos h2]
      have hlen : (acc ++ [s]).length = acc.length + 1 := by simp
      rw [hlen]
      split_ifs with h3
      · have h4 : K - acc.length = 1 := by omega
        rw [h4]
        simp
      · have h4 : K - acc.length = (K - (acc.length + 1)) + 1 := by omega
        rw [h4]
        simp [List.take_succ_cons]
    · rw [ih, List.filter_cons_of_neg (by simpa using h2), if_neg h1]
lemma workerGo_eq (isMatch : Int → Bool) (K : Nat) (l acc : List Int) :
    workerGo isMatch K acc l =
      if K ≤ acc.length then acc else acc ++ (l.filter isMatch).take (K - acc.length) := by
  induction l generalizing acc with
  | nil => rw [workerGo]; split_ifs <;> simp
  | cons s rest ih =>
    rw [workerGo]
    rcases le_or_lt K acc.length with hK | hK
    · by_cases h2 : isMatch s = true
      · rw [if_pos h2, if_neg (not_lt.mpr hK), if_pos hK]
      · rw [if_neg h2, ih, if_pos hK, if_pos hK]
    · have hK' : ¬ K ≤ acc.length := by omega
      have hlen : (acc ++ [s]).length = acc.length + 1 := by simp
      by_cases h2 : isMatch s = true
      · rw [if_pos h2, if_pos hK, if_neg hK', List.filter_cons_of_pos h2, hlen]
        split_ifs with h4
        · have h6 : K - acc.length = 1 := by omega
          rw [h6]
          simp
        · rw [ih, hlen, if_neg (by omega)]
          have h7 : K - acc.length = (K - (acc.length + 1)) + 1 := by omega
          rw [h7, List.take_succ_cons]
          simp
      · rw [if_neg h2, ih, if_neg hK', if_neg hK', List.filter_cons_of_neg (by simpa using h2)]

lemma gpuSearchGo_take_eq (isMatch : Int → Bool) (K : Nat) (b : Int) :
    ∀ (fuel : Nat) (batchStart : Int) (acc : List Int),
      b + 1 - batchStart ≤ (fuel : Int) * gpuBatchSize →
      (gpuSearchGo isMatch K b fuel batchStart acc).take K =
        (acc ++ (intRange batchStart b).filter isMatch).take K := by
  intro fuel
  induction fuel with
  | zero =>
    intro batchStart acc hfuel
    rw [gpuSearchGo, intRange_nil batchStart b (by simpa using by omega : b < batchStart)]
    simp
  | succ n ih =>
    intro batchStart acc hfuel
    simp only [gpuSearchGo]
    split_ifs with h1 h2
    · rw [intRange_nil batchStart b h1]
      simp
    · -- limit reached after this batch
      have hmin1 : batchStart ≤ min (batchStart + gpuBatchSize - 1) b + 1 := by
        rw [gpuBatchSize]; omega
      have hmin2 : min (batchStart + gpuBatchSize - 1) b ≤ b := min_le_right _ _
      rw [intRange_append batchStart (min (batchStart + gpuBatchSize - 1) b) b hmin1 hmin2,
        List.filter_append, ← List.append_assoc]
      exact (List.take_append_of_le_length h2).symm
    · -- recurse into the next batch
      rw [ih (batchStart + gpuBatchSize)
        (acc ++ List.filter isMatch (intRange batchStart (min (batchStart + gpuBatchSize - 1) b)))
        (by push_cast at hfuel ⊢; rw [gpuBatchSize] at hfuel ⊢; omega)]
      have hmin1 : batchStart ≤ min (batchStart + gpuBatchSize - 1) b + 1 := by
        rw [gpuBatchSize]; omega
      have hmin2 : min (batchStart + gpuBatchSize - 1) b ≤ b := min_le_right _ _
      rw [intRange_append batchStart (min (batchStart + gpuBatchSize - 1) b) b hmin1 hmin2,
        List.filter_append, ← List.append_assoc]
      rcases le_or_lt (batchStart + gpuBatchSize - 1) b with hc | hc
      · rw [min_eq_left hc]
        have he : batchStart + gpuBatchSize - 1 + 1 = batchStart + gpuBatchSize := by ring
        rw [he]
      · rw [min_eq_right (le_of_lt hc)]
        rw [intRange_nil (b + 1) b (by omega), intRange_nil (batchStart + gpuBatchSize) b (by omega)]

/-- C2: for every per-seed predicate, seed range and output limit `K`, the
accelerator batch loop, the CPU fallback loop and the (single-worker)
`worker_task` loop all report exactly the first `K` elements of the
ascending list of matching seeds: `min(K, number of matches)` results, the
smallest matches of the range, in ascending seed order. -/
theorem search_reports_smallest_matches_ascending (isMatch : Int → Bool)
    (startSeed endSeed : Int) (outputLimit : Nat) :
    searchSeedsPureGpu isMatch startSeed endSeed outputLimit =
      ((intRange startSeed endSeed).filter isMatch).take outputLimit ∧
    cpuFallbackSearch isMatch startSeed endSeed outputLimit =
      ((intRange startSeed endSeed).filter isMatch).take outputLimit ∧
    workerSearch isMatch startSeed endSeed outputLimit =
      ((intRange startSeed endSeed).filter isMatch).take outputLimit ∧
    (((intRange startSeed endSeed).filter isMatch).take outputLimit).length =
      min outputLimit ((intRange startSeed endSeed).filter isMatch).length ∧
    (((intRange startSeed endSeed).filter isMatch).take outputLimit).Pairwise (· < ·) := by
  refine ⟨?_, ?_, ?_, List.length_take _ _, ?_⟩
  · have hfuel : endSeed + 1 - startSeed ≤
        (((endSeed - startSeed).toNat / gpuBatchSize.toNat + 1 : ℕ) : Int) * gpuBatchSize := by
      rw [gpuBatchSize]
      push_cast
      norm_num
      omega
    rw [searchSeedsPureGpu, gpuSearchGo_take_eq isMatch outputLimit endSeed _ startSeed [] hfuel]
    simp
  · rw [cpuFallbackSearch, cpuFallbackGo_eq]
    split_ifs with h
    · have h0 : outputLimit = 0 := by simpa using h
      rw [h0]
      simp
    · simp
  · rw [workerSearch, workerGo_eq]
    split_ifs with h
    · have h0 : outputLimit = 0 := by simpa using h
      rw [h0]
      simp
    · simp
  · exact List.Pairwise.sublist ((List.take_sublist _ _).trans (List.filter_sublist _))
      (intRange_pairwise _ _)

/-! ## Claim theorems: CPU versus accelerator -/

/-- C1 fails on the code: for seed 0 (legacy off) the CUDA kernel's
per-day rain bit for summer day 1 (absolute day 29) is rain, because
`is_rainy_day_gpu` omits the CPU's `day_of_month == 1` fixed-dry rule for
summer and falls through to the probabilistic draw
(`first_rand / (2^31-1) = 213307927 / 2147483647 ≈ 0.0993 < 0.12`, far
from the threshold, so no float rounding can change it), while the CPU
oracle forces day 1 of every season dry.  Consequently, for the valid
condition set `[Summer, days 1..2, min 1 rain]` the GPU match bit of
seed 0 is set and the CPU evaluator rejects seed 0. -/
theorem gpu_cpu_weather_divergence_at_seed_zero :
    gpuIsRainyDay 1 1 29 0 false = true ∧
    isRainyDay 1 1 29 0 false (greenRainDay 0 false) = false ∧
    gpuMatchesSeed [⟨Season.summer, 1, 2, 1⟩] 0 false = true ∧
    checkSeed [⟨Season.summer, 1, 2, 1⟩] 0 false = false := by
  have hg1 : gpuIsRainyDay 1 1 29 0 false = true := by
    rw [show gpuIsRainyDay 1 1 29 0 false =
      decide (gpuRandomNextDouble (gpuGetRandomSeed 28 0 3985805918 0 0 false)
        < 12 / 100 + 3 / 1000 * ((1 : ℚ) - 1)) from rfl]
    rw [decide_eq_true_eq]
    simp only [gpuRandomNextDouble,
      show gpuGetFirstRand (gpuGetRandomSeed 28 0 3985805918 0 0 false) = 213307927 from by decide]
    norm_num
  have hg2 : gpuIsRainyDay 1 2 30 0 false = false := by
    rw [show gpuIsRainyDay 1 2 30 0 false =
      decide (gpuRandomNextDouble (gpuGetRandomSeed 29 0 3985805918 0 0 false)
        < 12 / 100 + 3 / 1000 * ((2 : ℚ) - 1)) from rfl]
    rw [decide_eq_false_iff_not]
    simp only [gpuRandomNextDouble,
      show gpuGetFirstRand (gpuGetRandomSeed 29 0 3985805918 0 0 false) = 1422701517 from by decide]
    norm_num
  have hc1 : isRainyDay 1 1 29 0 false (greenRainDay 0 false) = false := by
    norm_num [isRainyDay]
  have hc2 : isRainyDay 1 2 30 0 false (greenRainDay 0 false) = false := by
    rw [show isRainyDay 1 2 30 0 false (greenRainDay 0 false) =
      decide (randomNextDouble (getRandomSeed 29 0 summerRainChanceHash 0 0 false)
        < 12 / 100 + 3 / 1000 * ((2 : ℚ) - 1)) from rfl]
    rw [decide_eq_false_iff_not]
    simp only [randomNextDouble,
      show getFirstRand (getRandomSeed 29 0 summerRainChanceHash 0 0 false) = 1422701517
        from by decide]
    norm_num
  have hw29 : weatherGet 0 false 29 = false := by
    rw [weatherGet, if_pos (by norm_num),
      show ((29 : ℤ) - 1).toNat = 28 from rfl, predictWeather_getD 0 false 28 (by norm_num)]
    norm_num [isRainyDay]
  have hw30 : weatherGet 0 false 30 = false := by
    rw [weatherGet, if_pos (by norm_num),
      show ((30 : ℤ) - 1).toNat = 29 from rfl, predictWeather_getD 0 false 29 (by norm_num)]
    norm_num [hc2]
  refine ⟨hg1, hc1, ?_, ?_⟩
  · simp only [gpuMatchesSeed, List.all_cons, List.all_nil, Bool.and_true, gpuCountRain,
      gpuSeasonIndex, show intRange 1 2 = [1, 2] from by decide,
      List.countP_cons, List.countP_nil]
    norm_num [hg1, hg2]
  · rw [checkSeed, if_neg (by decide)]
    simp only [matchesConditions, List.all_cons, List.all_nil, Bool.and_true, countRainInRange,
      show WeatherCondition.absoluteStartDay ⟨Season.summer, 1, 2, 1⟩ = 29 from rfl,
      show WeatherCondition.absoluteEndDay ⟨Season.summer, 1, 2, 1⟩ = 30 from rfl,
      show intRange 29 30 = [29, 30] from by decide,
      List.countP_cons, List.countP_nil, hw29, hw30]
    norm_num
